import Mathlib

/-!
Verification of the calculation core of a command-line calculator
(`app/calculation/__init__.py`): the `Calculation` base class, the
`CalculationFactory` registry, and the four concrete calculation classes.

Operands are Python floats; following standard practice for verifying such
code we embed them as rationals `ℚ` (every finite float value is a rational,
and the arithmetic of the spec is exact real arithmetic).  Python exceptions
are embedded as `Except CalcError`.  The mutable class-level registry
`CalculationFactory._calculations` is embedded by explicit state passing: each
registration step takes a registry and returns the new one (or an error).
-/

namespace Calculator

/-- Models Python's built-in `str.lower` used by the factory (ASCII case
folding, which is all the registry's operator names exercise). -/
def pyLower (s : String) : String := ⟨s.data.map Char.toLower⟩

/-- Helper for `pyReplace`: replace every occurrence of `pat` (nonempty)
left to right, with the length of the remaining text as fuel. -/
def pyReplaceAux (pat rep : List Char) : List Char → Nat → List Char
  | s, 0 => s
  | s, fuel + 1 =>
    match s with
    | [] => []
    | c :: rest =>
      if pat.isPrefixOf s then rep ++ pyReplaceAux pat rep (s.drop pat.length) fuel
      else c :: pyReplaceAux pat rep rest fuel

/-- Models Python's built-in `str.replace` (for a nonempty pattern, which is
the only way the source uses it): every occurrence of `pat` in `s` is
replaced by `rep`, scanning left to right. -/
def pyReplace (s pat rep : String) : String :=
  ⟨pyReplaceAux pat.data rep.data s.data s.data.length⟩

/-- Smallest exponent `k` (starting the search at `k`, with the given fuel)
such that `d` divides `10 ^ k`; `none` if the denominator admits no finite
decimal expansion within the fuel. -/
def decExpFrom (d : Nat) : Nat → Nat → Option Nat
  | k, fuel =>
    if 10 ^ k % d = 0 then some k
    else match fuel with
      | 0 => none
      | fuel + 1 => decExpFrom d (k + 1) fuel

/-- The fractional digits of a decimal expansion: `frac < 10 ^ k` rendered to
width `k` with leading zeros, trailing zeros stripped, and at least one
digit kept (Python prints `2.0`, not `2.`). -/
def fracDigitsStr (frac : Nat) (k : Nat) : String :=
  let s := Nat.toDigits 10 frac
  let padded := List.replicate (k - s.length) '0' ++ s
  let stripped := (padded.reverse.dropWhile (fun c => c == '0')).reverse
  ⟨if stripped = [] then ['0'] else stripped⟩

/-- Models Python's built-in `str` on a float value (as used by the f-string
in `Calculation.__str__`): sign, integer part, a decimal point, and the
fractional digits without trailing zeros — e.g. `2.0`, `-3.5`.  Scoped to
values with a short decimal expansion (no scientific notation), which covers
every value the calculator's rendering is specified on. -/
def pyFloatStr (q : ℚ) : String :=
  match decExpFrom q.den 0 1200 with
  | some k =>
    let scaled := q.num.natAbs * 10 ^ k / q.den
    (if q.num < 0 then "-" else "") ++ toString (scaled / 10 ^ k) ++ "." ++
      fracDigitsStr (scaled % 10 ^ k) k
  | none => toString q

namespace Operation

/-- Modelled from the spec: `app.operation.Operation.addition` — the Operation
Library's source file is not under `src/`; spec §4.1 gives
`addition(a, b) -> a + b`. -/
def addition (a b : ℚ) : ℚ := a + b

/-- Modelled from the spec: `app.operation.Operation.subtraction`, spec §4.1:
`subtraction(a, b) -> a - b`. -/
def subtraction (a b : ℚ) : ℚ := a - b

/-- Modelled from the spec: `app.operation.Operation.multiplication`, spec
§4.1: `multiplication(a, b) -> a * b`. -/
def multiplication (a b : ℚ) : ℚ := a * b

/-- Modelled from the spec: `app.operation.Operation.division`, spec §4.1:
`division(a, b) -> a / b`, with `b = 0` guarded by the caller. -/
def division (a b : ℚ) : ℚ := a / b

end Operation

/-- The errors the calculation core raises: `ZeroDivisionError` (from
`DivideCalculation.execute`) and `ValueError` (from the factory), each
carrying its message. -/
inductive CalcError where
  | zeroDivisionError (msg : String)
  | valueError (msg : String)
  deriving DecidableEq

/-- The four concrete `Calculation` subclasses, as tags. -/
inductive CalcType where
  | add
  | subtract
  | multiply
  | divide
  deriving DecidableEq

/-- `self.__class__.__name__` of each concrete subclass. -/
def CalcType.className : CalcType → String
  | .add => "AddCalculation"
  | .subtract => "SubtractCalculation"
  | .multiply => "MultiplyCalculation"
  | .divide => "DivideCalculation"

/-- A calculation entity: its concrete class and the two operands stored by
`Calculation.__init__` (`self.a`, `self.b`). -/
structure Calculation where
  ctype : CalcType
  a : ℚ
  b : ℚ
  deriving DecidableEq

/-- The `execute` method of the concrete subclass of the entity:
`AddCalculation.execute` returns `Operation.addition(self.a, self.b)`,
similarly for subtract and multiply; `DivideCalculation.execute` first
checks `if self.b == 0: raise ZeroDivisionError("Cannot divide by zero.")`
and otherwise returns `Operation.division(self.a, self.b)`. -/
def Calculation.execute (c : Calculation) : Except CalcError ℚ :=
  match c.ctype with
  | .add => .ok (Operation.addition c.a c.b)
  | .subtract => .ok (Operation.subtraction c.a c.b)
  | .multiply => .ok (Operation.multiplication c.a c.b)
  | .divide =>
    if c.b = 0 then .error (.zeroDivisionError "Cannot divide by zero.")
    else .ok (Operation.division c.a c.b)

/-- `DivideCalculation.execute` with the Operation Library's division left as
a parameter: the zero check runs before `division` is ever applied, so the
error branch is independent of what `division` computes. -/
def DivideCalculation.executeWith (division : ℚ → ℚ → ℚ) (a b : ℚ) :
    Except CalcError ℚ :=
  if b = 0 then .error (.zeroDivisionError "Cannot divide by zero.")
  else .ok (division a b)

/-- `Calculation.__str__`: runs `self.execute()` (so an exception it raises
propagates), strips the suffix `"Calculation"` from the class name to get
`operation_name`, and formats
`f"{self.__class__.__name__}: {self.a} {operation_name} {self.b} = {result}"`. -/
def Calculation.str (c : Calculation) : Except CalcError String :=
  (c.execute).map fun result =>
    let operation_name := pyReplace c.ctype.className "Calculation" ""
    c.ctype.className ++ ": " ++ pyFloatStr c.a ++ " " ++ operation_name ++ " " ++
      pyFloatStr c.b ++ " = " ++ pyFloatStr result

/-- `Calculation.execute` with the entity (Python's `self`) threaded as
explicit state: the method body reads `self.a` and `self.b` and assigns no
attribute, so the returned entity is the method's `self` as it leaves the
call. -/
def Calculation.executeS (c : Calculation) : Except CalcError (ℚ × Calculation) :=
  match c.ctype with
  | .add => .ok (Operation.addition c.a c.b, c)
  | .subtract => .ok (Operation.subtraction c.a c.b, c)
  | .multiply => .ok (Operation.multiplication c.a c.b, c)
  | .divide =>
    if c.b = 0 then .error (.zeroDivisionError "Cannot divide by zero.")
    else .ok (Operation.division c.a c.b, c)

/-- `Calculation.__str__` with the entity threaded as explicit state, for the
idempotence/immutability properties: the body only calls `execute` and reads
attributes, assigning none. -/
def Calculation.strS (c : Calculation) : Except CalcError (String × Calculation) :=
  (c.executeS).map fun p =>
    let operation_name := pyReplace c.ctype.className "Calculation" ""
    (c.ctype.className ++ ": " ++ pyFloatStr c.a ++ " " ++ operation_name ++ " " ++
      pyFloatStr c.b ++ " = " ++ pyFloatStr p.1, p.2)

/-- The factory's registry `CalculationFactory._calculations`: a mapping from
lowercased operator-name strings to concrete calculation classes, embedded
as an association list in registration order. -/
abbrev Registry := List (String × CalcType)

/-- `CalculationFactory.register_calculation` (the decorator body): lowercases
`calculation_type`; raises
`ValueError(f"Calculation type '{calculation_type}' is already registered.")`
if the lowercased key is already present (before any mutation, so the
registry is unchanged); otherwise maps the key to `subclass`. -/
def registerCalculation (r : Registry) (calculation_type : String)
    (subclass : CalcType) : Except CalcError Registry :=
  let calculation_type_lower := pyLower calculation_type
  if (r.lookup calculation_type_lower).isSome then
    .error (.valueError ("Calculation type '" ++ calculation_type ++
      "' is already registered."))
  else
    .ok (r ++ [(calculation_type_lower, subclass)])

/-- `CalculationFactory.create_calculation`: lowercases `calculation_type`,
looks it up in the registry; raises
`ValueError(f"Unsupported calculation type: '{calculation_type}'")` when the
lookup returns nothing, else instantiates the registered class with `(a, b)`. -/
def createCalculation (r : Registry) (calculation_type : String) (a b : ℚ) :
    Except CalcError Calculation :=
  let calculation_type_lower := pyLower calculation_type
  match r.lookup calculation_type_lower with
  | none => .error (.valueError ("Unsupported calculation type: '" ++
      calculation_type ++ "'"))
  | some calculation_class => .ok ⟨calculation_class, a, b⟩

/-- The module-import-time registrations: the four
`@CalculationFactory.register_calculation(...)` decorators run in source
order on the initially empty `_calculations` dictionary. -/
def registerAll : Except CalcError Registry := do
  let r ← registerCalculation [] "add" .add
  let r ← registerCalculation r "subtract" .subtract
  let r ← registerCalculation r "multiply" .multiply
  registerCalculation r "divide" .divide

/-- The registry as it stands after module import, when callers invoke the
factory. -/
def defaultRegistry : Registry :=
  [("add", .add), ("subtract", .subtract), ("multiply", .multiply),
    ("divide", .divide)]

/-- `create(name, a, b)` at the public interface: `create_calculation` on the
registry produced by the import-time registrations. -/
def create (calculation_type : String) (a b : ℚ) : Except CalcError Calculation :=
  createCalculation defaultRegistry calculation_type a b

/-- The startup registrations all succeed and produce `defaultRegistry`. -/
theorem registerAll_eq : registerAll = .ok defaultRegistry := rfl

/-- Claim C1: for every pair of operands, executing the entity obtained from
`create("divide", a, b)` with `b` exactly zero fails with the DivisionByZero
error; the failure comes from the zero check inside the entity, before the
Operation Library's division function is invoked — `execute` agrees with the
check-then-delegate shape `executeWith Operation.division`, and the error
branch holds for an arbitrary division function. -/
theorem claim_C1 (a : ℚ) :
    (create "divide" a 0).bind Calculation.execute =
      .error (.zeroDivisionError "Cannot divide by zero.") ∧
    (∀ division : ℚ → ℚ → ℚ, DivideCalculation.executeWith division a 0 =
      .error (.zeroDivisionError "Cannot divide by zero.")) ∧
    (∀ b : ℚ, Calculation.execute ⟨.divide, a, b⟩ =
      DivideCalculation.executeWith Operation.division a b) := by
  refine ⟨?_, fun division => ?_, fun b => ?_⟩
  · show Calculation.execute ⟨.divide, a, 0⟩ = _
    simp [Calculation.execute]
  · simp [DivideCalculation.executeWith]
  · rfl

/-- Claim C2: for every pair of operands, `create("add", a, b).execute()`
returns `a + b`, `create("subtract", a, b).execute()` returns `a - b`, and
`create("multiply", a, b).execute()` returns `a * b`; all three succeed. -/
theorem claim_C2 (a b : ℚ) :
    (create "add" a b).bind Calculation.execute = .ok (a + b) ∧
    (create "subtract" a b).bind Calculation.execute = .ok (a - b) ∧
    (create "multiply" a b).bind Calculation.execute = .ok (a * b) :=
  ⟨rfl, rfl, rfl⟩

/-- Claim C3: for every pair of operands with `b ≠ 0`,
`create("divide", a, b).execute()` succeeds and returns `a / b`. -/
theorem claim_C3 (a b : ℚ) (h : b ≠ 0) :
    (create "divide" a b).bind Calculation.execute = .ok (a / b) := by
  show Calculation.execute ⟨.divide, a, b⟩ = .ok (a / b)
  simp [Calculation.execute, h, Operation.division]

/-- Witness for C3 at the spec's scenario `create("divide", 10.0, 2.0)`. -/
theorem claim_C3_witness :
    (2 : ℚ) ≠ 0 ∧
      (create "divide" 10 2).bind Calculation.execute = .ok (10 / 2) :=
  ⟨by norm_num, claim_C3 10 2 (by norm_num)⟩

/-- Claim C10: the divide entity's zero check uses numeric equality with
zero, and negative zero equals zero (in the rational embedding of float
values, as under IEEE comparison `-0.0 == 0`), so
`create("divide", a, -0.0).execute()` also fails with DivisionByZero. -/
theorem claim_C10 :
    ((-0 : ℚ) = 0) ∧
    ∀ a : ℚ, (create "divide" a (-0)).bind Calculation.execute =
      .error (.zeroDivisionError "Cannot divide by zero.") := by
  refine ⟨neg_zero, fun a => ?_⟩
  show Calculation.execute ⟨.divide, a, -0⟩ = _
  simp [Calculation.execute]

/-- Claim C4: for every operator-name string whose lowercased form is not a
key of the registry, `create(name, a, b)` fails with an UnsupportedOperation
error (`ValueError`) whose payload names the requested operator, and no
calculation entity is constructed. -/
theorem claim_C4 (name : String) (a b : ℚ)
    (h : defaultRegistry.lookup (pyLower name) = none) :
    create name a b = .error (.valueError
      ("Unsupported calculation type: '" ++ name ++ "'")) ∧
    ∀ c : Calculation, create name a b ≠ .ok c := by
  have key : create name a b =
      match defaultRegistry.lookup (pyLower name) with
      | none => .error (.valueError
          ("Unsupported calculation type: '" ++ name ++ "'"))
      | some t => .ok ⟨t, a, b⟩ := rfl
  have he : create name a b = .error (.valueError
      ("Unsupported calculation type: '" ++ name ++ "'")) := by
    rw [key, h]
  exact ⟨he, fun c hc => by rw [he] at hc; exact Except.noConfusion hc⟩

/-- Witness for C4 at the spec's scenario `create("power", 2.0, 3.0)`. -/
theorem claim_C4_witness :
    defaultRegistry.lookup (pyLower "power") = none ∧
      create "power" (2 : ℚ) 3 = .error (.valueError
        "Unsupported calculation type: 'power'") :=
  ⟨rfl, (claim_C4 "power" 2 3 rfl).1⟩

/-- Claim C5: registering a name whose lowercased form is already a key fails
with a DuplicateRegistration error (`ValueError`), the registry is unchanged
by the failed call (no new registry value is produced; the original
constructor stays mapped under the key), and subsequent `create` calls on
that registry still use the originally registered constructor. -/
theorem claim_C5 (r : Registry) (name : String) (t₀ ctor : CalcType)
    (h : r.lookup (pyLower name) = some t₀) :
    registerCalculation r name ctor = .error (.valueError
      ("Calculation type '" ++ name ++ "' is already registered.")) ∧
    r.lookup (pyLower name) = some t₀ ∧
    ∀ a b : ℚ, createCalculation r name a b = .ok ⟨t₀, a, b⟩ := by
  refine ⟨?_, h, fun a b => ?_⟩
  · have key : registerCalculation r name ctor =
        if (r.lookup (pyLower name)).isSome then
          .error (.valueError ("Calculation type '" ++ name ++
            "' is already registered."))
        else .ok (r ++ [(pyLower name, ctor)]) := rfl
    rw [key, h]
    rfl
  · have key : createCalculation r name a b =
        match r.lookup (pyLower name) with
        | none => .error (.valueError
            ("Unsupported calculation type: '" ++ name ++ "'"))
        | some t => .ok ⟨t, a, b⟩ := rfl
    rw [key, h]

/-- Witness for C5: re-registering `"add"` fails and the original
`AddCalculation` registration keeps serving `create`. -/
theorem claim_C5_witness :
    defaultRegistry.lookup (pyLower "add") = some .add ∧
      registerCalculation defaultRegistry "add" .subtract = .error (.valueError
        "Calculation type 'add' is already registered.") ∧
      createCalculation defaultRegistry "add" (2 : ℚ) 3 = .ok ⟨.add, 2, 3⟩ := by
  have h := claim_C5 defaultRegistry "add" .add .subtract rfl
  exact ⟨rfl, h.1, h.2.2 2 3⟩

/-- Counterexample to C6 as stated: `"POWER"` and `"power"` are case variants
of one unregistered name, yet the two `create` calls do not behave
identically — each failure's payload quotes the operator as the caller
spelled it, so the two errors differ. -/
theorem claim_C6_counterexample :
    pyLower "POWER" = pyLower "power" ∧
      create "POWER" (2 : ℚ) 3 ≠ create "power" (2 : ℚ) 3 := by
  refine ⟨rfl, fun h => ?_⟩
  have h1 : create "POWER" (2 : ℚ) 3 = .error (.valueError
      "Unsupported calculation type: 'POWER'") := rfl
  have h2 : create "power" (2 : ℚ) 3 = .error (.valueError
      "Unsupported calculation type: 'power'") := rfl
  rw [h1, h2] at h
  injection h with h
  injection h with h
  exact absurd h (by decide)

/-- Claim C6 (amended): lookup is case-insensitive — for case variants
`n₁, n₂` (equal after lowercasing) and any operands, successful `create`
calls construct entities of the same calculation type with the same
operands (their successful results are identical); when the lowercased name
is unregistered both calls fail with an UnsupportedOperation error, but each
error's payload quotes the operator as that caller spelled it. -/
theorem claim_C6_amended (n₁ n₂ : String) (a b : ℚ)
    (h : pyLower n₁ = pyLower n₂) :
    ((create n₁ a b).toOption = (create n₂ a b).toOption) ∧
    (∀ t : CalcType, defaultRegistry.lookup (pyLower n₁) = some t →
      create n₁ a b = .ok ⟨t, a, b⟩ ∧ create n₂ a b = .ok ⟨t, a, b⟩) ∧
    (defaultRegistry.lookup (pyLower n₁) = none →
      create n₁ a b = .error (.valueError
        ("Unsupported calculation type: '" ++ n₁ ++ "'")) ∧
      create n₂ a b = .error (.valueError
        ("Unsupported calculation type: '" ++ n₂ ++ "'"))) := by
  have key : ∀ n : String, create n a b =
      match defaultRegistry.lookup (pyLower n) with
      | none => .error (.valueError
          ("Unsupported calculation type: '" ++ n ++ "'"))
      | some t => .ok ⟨t, a, b⟩ := fun n => rfl
  cases hl : defaultRegistry.lookup (pyLower n₁) with
  | none =>
    have h1 : create n₁ a b = .error (.valueError
        ("Unsupported calculation type: '" ++ n₁ ++ "'")) := by rw [key, hl]
    have h2 : create n₂ a b = .error (.valueError
        ("Unsupported calculation type: '" ++ n₂ ++ "'")) := by
      rw [key, ← h, hl]
    refine ⟨by rw [h1, h2]; rfl, fun t ht => ?_, fun _ => ⟨h1, h2⟩⟩
    exact Option.noConfusion ht
  | some t' =>
    have h1 : create n₁ a b = .ok ⟨t', a, b⟩ := by rw [key, hl]
    have h2 : create n₂ a b = .ok ⟨t', a, b⟩ := by rw [key, ← h, hl]
    refine ⟨by rw [h1, h2], fun t ht => ?_, fun hn => ?_⟩
    · injection ht with ht
      subst ht
      exact ⟨h1, h2⟩
    · exact Option.noConfusion hn

/-- Witness for the amended C6 at the spec's example `"ADD"` versus `"add"`. -/
theorem claim_C6_amended_witness :
    pyLower "ADD" = pyLower "add" ∧
      create "ADD" (2 : ℚ) 3 = .ok ⟨.add, 2, 3⟩ ∧
      create "add" (2 : ℚ) 3 = .ok ⟨.add, 2, 3⟩ :=
  ⟨rfl, (claim_C6_amended "ADD" "add" 2 3 rfl).2.1 .add rfl⟩

/-- Claim C7: for every successfully executing entity, the text rendering
produces exactly `"<EntityName>: <a> <symbol> <b> = <result>"`, where the
symbol is the entity's class name with the fixed suffix `"Calculation"`
stripped (the word `Add`, `Subtract`, `Multiply` or `Divide`, not an
arithmetic sign); in particular `create("add", 2.0, 3.0)` renders as
`"AddCalculation: 2.0 Add 3.0 = 5.0"`. -/
theorem claim_C7 :
    (∀ (c : Calculation) (r : ℚ), c.execute = .ok r →
      c.str = .ok (c.ctype.className ++ ": " ++ pyFloatStr c.a ++ " " ++
        pyReplace c.ctype.className "Calculation" "" ++ " " ++
        pyFloatStr c.b ++ " = " ++ pyFloatStr r)) ∧
    (pyReplace (CalcType.className .add) "Calculation" "" = "Add" ∧
      pyReplace (CalcType.className .subtract) "Calculation" "" = "Subtract" ∧
      pyReplace (CalcType.className .multiply) "Calculation" "" = "Multiply" ∧
      pyReplace (CalcType.className .divide) "Calculation" "" = "Divide") ∧
    (create "add" (2 : ℚ) 3).bind Calculation.str =
      .ok "AddCalculation: 2.0 Add 3.0 = 5.0" := by
  refine ⟨fun c r h => ?_, ⟨rfl, rfl, rfl, rfl⟩, ?_⟩
  · unfold Calculation.str
    rw [h]
    rfl
  · show Calculation.str ⟨.add, 2, 3⟩ = _
    have h : Calculation.execute ⟨.add, 2, 3⟩ = .ok 5 := by
      show Except.ok (Operation.addition 2 3) = _
      norm_num [Operation.addition]
    unfold Calculation.str
    rw [h]
    rfl

/-- Witness for C7: the general format statement applied at the concrete
entity `create("add", 2.0, 3.0)` with result `5.0`. -/
theorem claim_C7_witness :
    Calculation.str ⟨.add, 2, 3⟩ = .ok "AddCalculation: 2.0 Add 3.0 = 5.0" := by
  have h : Calculation.execute ⟨.add, 2, 3⟩ = .ok 5 := by
    show Except.ok (Operation.addition 2 3) = _
    norm_num [Operation.addition]
  have hs := claim_C7.1 ⟨.add, 2, 3⟩ 5 h
  rw [hs]
  rfl

/-- Claim C8: the text rendering re-invokes `execute()`: an error raised by
`execute` propagates out of the rendering unchanged, so rendering a divide
entity whose second operand is zero fails with the same DivisionByZero
error instead of returning a string. -/
theorem claim_C8 :
    (∀ (c : Calculation) (e : CalcError), c.execute = .error e →
      c.str = .error e) ∧
    ∀ a : ℚ, Calculation.str ⟨.divide, a, 0⟩ =
        .error (.zeroDivisionError "Cannot divide by zero.") ∧
      Calculation.execute ⟨.divide, a, 0⟩ =
        .error (.zeroDivisionError "Cannot divide by zero.") := by
  refine ⟨fun c e h => ?_, fun a => ?_⟩
  · unfold Calculation.str
    rw [h]
    rfl
  · have he : Calculation.execute ⟨.divide, a, 0⟩ =
        .error (.zeroDivisionError "Cannot divide by zero.") := by
      simp [Calculation.execute]
    refine ⟨?_, he⟩
    unfold Calculation.str
    rw [he]
    rfl

/-- Witness for C8: the propagation statement applied at the concrete failing
entity `create("divide", 1.0, 0.0)`. -/
theorem claim_C8_witness :
    Calculation.str ⟨.divide, 1, 0⟩ =
      .error (.zeroDivisionError "Cannot divide by zero.") :=
  claim_C8.1 ⟨.divide, 1, 0⟩ (.zeroDivisionError "Cannot divide by zero.") rfl

/-- Claim C9: rendering is idempotent and deterministic — with the entity
(Python's `self`) threaded as explicit state, a successful rendering leaves
the entity and its stored operands unchanged, and rendering the resulting
entity again yields the same string. -/
theorem claim_C9 (c : Calculation) (s : String) (c₁ : Calculation)
    (h : c.strS = .ok (s, c₁)) :
    c₁ = c ∧ c₁.a = c.a ∧ c₁.b = c.b ∧ c₁.strS = .ok (s, c₁) := by
  have hsame : c₁ = c := by
    unfold Calculation.strS at h
    cases he : c.executeS with
    | error e =>
      rw [he] at h
      exact Except.noConfusion h
    | ok p =>
      have hp : p.2 = c := by
        unfold Calculation.executeS at he
        cases ht : c.ctype <;> rw [ht] at he
        · injection he with he
          rw [← he]
        · injection he with he
          rw [← he]
        · injection he with he
          rw [← he]
        · by_cases hb : c.b = 0
          · rw [if_pos hb] at he
            exact Except.noConfusion he
          · rw [if_neg hb] at he
            injection he with he
            rw [← he]
      rw [he] at h
      injection h with h
      have := congrArg Prod.snd h
      simp at this
      rw [← this, hp]
  subst hsame
  exact ⟨rfl, rfl, rfl, h⟩

/-- Witness for C9 at the concrete entity `create("add", 2.0, 3.0)`. -/
theorem claim_C9_witness :
    Calculation.strS ⟨.add, 2, 3⟩ =
      .ok ("AddCalculation: 2.0 Add 3.0 = 5.0", ⟨.add, 2, 3⟩) ∧
    Calculation.strS ⟨.add, 2, 3⟩ =
      .ok ("AddCalculation: 2.0 Add 3.0 = 5.0", ⟨.add, 2, 3⟩) := by
  have h : Calculation.strS ⟨.add, 2, 3⟩ =
      .ok ("AddCalculation: 2.0 Add 3.0 = 5.0", ⟨.add, 2, 3⟩) := by
    have he : Calculation.executeS ⟨.add, 2, 3⟩ = .ok (5, ⟨.add, 2, 3⟩) := by
      show Except.ok (Operation.addition 2 3, (⟨.add, 2, 3⟩ : Calculation)) = _
      norm_num [Operation.addition]
    unfold Calculation.strS
    rw [he]
    rfl
  exact ⟨h, (claim_C9 ⟨.add, 2, 3⟩ "AddCalculation: 2.0 Add 3.0 = 5.0"
    ⟨.add, 2, 3⟩ h).2.2.2⟩

end Calculator
